import Mathlib

/-!
Verification of the Kashf backend scan-orchestration and risk-scoring
pipeline.  The definitions below are a shallow embedding of the Python
sources:

* `ai/risk_categories.py`   — category enum, per-platform base scores, warnings
* `ai/threat_scorer.py`     — the rule-based risk scorer
* `scrapers/base.py`        — the `ScraperResult` value type and result helpers
* `scrapers/manager.py`     — the per-probe runner and the scan orchestrator
* `database.py`             — the persisted row shapes (`Finding`, `ScanTask`,
                              `ThreatReport`)
* `utils/secure_wipe.py`    — task wipe and the retention sweep

Python floats are modelled as exact rationals (`ℚ`); every numeric literal of
the source (`0.3`, `9.5`, `30.0`, …) is exactly representable.  The Python function
`round(x, 1)` is modelled by `round1` (round to the nearest tenth); none of the
concrete values appearing in the claims sits on a tie, so the tie-breaking
convention is not observable there.  The JSON serialisation of the `data` mapping of a finding is injective, so the persisted `data_found` column is modelled
by the mapping itself (as an `Option`).
-/

namespace Kashf

/-- Privacy risk categories, the `RiskCategory` enum of `ai/risk_categories.py`,
in source declaration order (which is also the Python iteration order). -/
inductive RiskCategory where
  | IMPERSONATION
  | PHISHING
  | STALKING
  | REPUTATIONAL
  | DATA_BREACH
  | INFRASTRUCTURE
deriving DecidableEq

/-- String value of each enum member (`str` subclass values in the source). -/
def RiskCategory.value : RiskCategory → String
  | .IMPERSONATION => "IMPERSONATION"
  | .PHISHING => "PHISHING"
  | .STALKING => "STALKING"
  | .REPUTATIONAL => "REPUTATIONAL"
  | .DATA_BREACH => "DATA_BREACH"
  | .INFRASTRUCTURE => "INFRASTRUCTURE"

/-- Enumeration of the six members in iteration order, used wherever the
source iterates `for cat in RiskCategory`. -/
def risk_categories : List RiskCategory :=
  [.IMPERSONATION, .PHISHING, .STALKING, .REPUTATIONAL, .DATA_BREACH, .INFRASTRUCTURE]

/-- The `CATEGORY_DESCRIPTIONS` dict of `ai/risk_categories.py`; every member
is a key, so the `.get(cat.value, "")` in the scorer always hits. -/
def CATEGORY_DESCRIPTIONS : RiskCategory → String
  | .IMPERSONATION =>
      "Risk of identity theft or impersonation. Your public profiles could be cloned to create fake accounts for social engineering attacks."
  | .PHISHING =>
      "Risk of targeted phishing. Professional information can be used to craft convincing spear-phishing emails targeting you or your organization."
  | .STALKING =>
      "Risk of physical or cyber stalking. Location data, daily routines, or personal photos could be exploited for harassment."
  | .REPUTATIONAL =>
      "Risk of reputational damage. Public posts, comments, or associated accounts could be used to damage your professional or personal reputation."
  | .DATA_BREACH =>
      "Your credentials have been exposed in known data breaches. Compromised passwords may give attackers access to your accounts."
  | .INFRASTRUCTURE =>
      "Internet-facing services or devices associated with you have been detected. Misconfigured services could be exploited for unauthorized access."

/-- The `PLATFORM_BASE_SCORES` dict of `ai/risk_categories.py` (0–10 scale),
in source order. -/
def PLATFORM_BASE_SCORES : List (String × ℚ) :=
  [("Facebook", 7),
   ("Instagram", 13/2),
   ("Twitter/X", 5),
   ("TikTok", 11/2),
   ("Snapchat", 6),
   ("Pinterest", 3),
   ("LinkedIn", 8),
   ("GitHub", 4),
   ("GitLab", 7/2),
   ("Behance", 3),
   ("HaveIBeenPwned", 19/2),
   ("Dehashed", 17/2),
   ("Shodan", 9),
   ("Gravatar", 4),
   ("Keybase", 3),
   ("About.me", 7/2),
   ("Reddit", 9/2),
   ("StackOverflow", 3),
   ("Medium", 3),
   ("HackerNews", 3)]

/-- The `PLATFORM_WARNINGS` dict of `ai/risk_categories.py`. -/
def PLATFORM_WARNINGS : List (String × String) :=
  [("Facebook",
    "⚠️ SOCIAL ENGINEERING RISK: Your Facebook profile exposes personal details that attackers can use for social engineering, pretexting, and impersonation."),
   ("LinkedIn",
    "⚠️ TARGETED PHISHING RISK: Your LinkedIn profile reveals professional details that enable highly convincing spear-phishing campaigns targeting you or colleagues."),
   ("HaveIBeenPwned",
    "🚨 CREDENTIAL BREACH DETECTED: Your email was found in known data breaches. PRIORITY: Update all passwords immediately and enable Multi-Factor Authentication (MFA)."),
   ("Shodan",
    "🚨 INFRASTRUCTURE EXPOSURE: Internet-facing services associated with your domain were detected on Shodan. Review for misconfigured services and open ports."),
   ("Instagram",
    "⚠️ STALKING RISK: Your Instagram activity may reveal location patterns, daily routines, and personal relationships."),
   ("Twitter/X",
    "⚠️ REPUTATIONAL RISK: Public tweets and interactions can be scraped and used for profiling or reputational attacks."),
   ("Dehashed",
    "🚨 CREDENTIAL LEAK: Your information appeared in leaked/breached databases. Change passwords on all affected services and enable MFA.")]

/-- The `ScraperResult` dataclass of `scrapers/base.py` (the spec calls it
`ProbeResult`), with the field defaults of the source.  `data` is the
platform-specific attribute mapping (`dict[str, Any]` in the source; only its
keys/size and emptiness are consumed by the core). -/
structure ScraperResult where
  platform : String
  url : Option String := none
  found : Bool := false
  data : List (String × String) := []
  risk_category : String := ""
  risk_score : ℚ := 0
  error : Option String := none
deriving DecidableEq

/-- Effective category of a found result: `r.risk_category or
RiskCategory.REPUTATIONAL` (line 38 of `threat_scorer.py`; the empty string is
the only falsy value of the `str` field). -/
def eff_category (r : ScraperResult) : String :=
  if r.risk_category = "" then RiskCategory.REPUTATIONAL.value else r.risk_category

/-- The per-category hit list: the scorer groups `found` results by effective
category into `category_hits` (dict insertion order preserves list order), then
reads `category_hits.get(cat.value, [])`. -/
def category_hits (cat : RiskCategory) (results : List ScraperResult) : List ScraperResult :=
  results.filter (fun r => r.found && (eff_category r == cat.value))

/-- Base risk score lookup: `PLATFORM_BASE_SCORES.get(hit.platform, 5.0)`. -/
def base_score (platform : String) : ℚ :=
  (PLATFORM_BASE_SCORES.lookup platform).getD 5

/-- Data-richness bonus: `min(len(hit.data) * 0.3, 2.0) if hit.data else 0.0`. -/
def data_bonus (r : ScraperResult) : ℚ :=
  if r.data = [] then 0 else min ((r.data.length : ℚ) * (3/10)) 2

/-- Per-hit platform score: `min(base + data_bonus, 10.0)`. -/
def platform_score (r : ScraperResult) : ℚ :=
  min (base_score r.platform + data_bonus r) 10

/-- Raw category score: the sum of `platform_score` over the hits of the category. -/
def cat_raw_score (cat : RiskCategory) (results : List ScraperResult) : ℚ :=
  ((category_hits cat results).map platform_score).sum

/-- Per-category warning list: a warning is appended for each hit whose
platform is a key of `PLATFORM_WARNINGS`. -/
def cat_warnings (cat : RiskCategory) (results : List ScraperResult) : List String :=
  (category_hits cat results).filterMap (fun r => PLATFORM_WARNINGS.lookup r.platform)

/-- Normalised category score:
`min((cat_score / 30.0) * 100.0, 100.0) if hits else 0.0`. -/
def normalized_score (cat : RiskCategory) (results : List ScraperResult) : ℚ :=
  if category_hits cat results = [] then 0
  else min ((cat_raw_score cat results / 30) * 100) 100

/-- The `_category_weight` helper (the `.get(cat, 0.10)` default is dead code:
every member is a key). -/
def category_weight : RiskCategory → ℚ
  | .DATA_BREACH => 30/100
  | .INFRASTRUCTURE => 20/100
  | .PHISHING => 20/100
  | .IMPERSONATION => 15/100
  | .STALKING => 10/100
  | .REPUTATIONAL => 5/100

/-- Accumulated `total_weighted_score`: `Σ normalized * weight` over the six
categories. -/
def total_weighted_score (results : List ScraperResult) : ℚ :=
  (risk_categories.map (fun c => normalized_score c results * category_weight c)).sum

/-- Accumulated `max_possible_score`: `Σ 100.0 * weight` over the six
categories — accumulated unconditionally, so it does not depend on the
results. -/
def max_possible_score : ℚ :=
  (risk_categories.map (fun c => 100 * category_weight c)).sum

/-- The Python `round(x, 1)`: round to the nearest tenth.  (Ties round half-up
here; no value reaching `round` in the claims sits on a tie.) -/
def round1 (q : ℚ) : ℚ :=
  ((round (q * 10) : ℤ) : ℚ) / 10

/-- The overall score of `analyze_findings`:
`round((total_weighted / max_possible) * 100.0 if max_possible > 0 else 0.0, 1)`. -/
def overall_score (results : List ScraperResult) : ℚ :=
  round1 (if 0 < max_possible_score
          then total_weighted_score results / max_possible_score * 100
          else 0)

/-- The `_risk_level` helper. -/
def risk_level_of (score : ℚ) : String :=
  if 75 ≤ score then "critical"
  else if 50 ≤ score then "high"
  else if 25 ≤ score then "medium"
  else "low"

/-- One entry of the `category_scores` list of the report. -/
structure CategoryScoreEntry where
  category : String
  score : ℚ
  description : String
  platforms_found : List String
  warnings : List String
deriving DecidableEq

/-- The `category_scores` list: one entry per category in enum order, built
whether or not the category has hits. -/
def category_scores (results : List ScraperResult) : List CategoryScoreEntry :=
  risk_categories.map (fun cat =>
    { category := cat.value
      score := round1 (normalized_score cat results)
      description := CATEGORY_DESCRIPTIONS cat
      platforms_found := (category_hits cat results).map (·.platform)
      warnings := cat_warnings cat results })

/-- Rendering of a one-decimal score the way the Python f-string renders the
`round(x, 1)` float (`9.5`, `0.0`, `31.7`, …). -/
def fmt_score (q : ℚ) : String :=
  let n : ℤ := round (q * 10)
  toString (n / 10) ++ "." ++ toString (n % 10)

/-- The breach warning sentence of `_generate_summary`. -/
def breach_sentence (breaches : Nat) : String :=
  "🚨 CRITICAL: Your credentials were found in " ++ toString breaches ++
    " breach database(s). Immediate action required."

/-- The infrastructure warning sentence of `_generate_summary`. -/
def infra_sentence : String :=
  "⚠️ Infrastructure exposure detected. Internet-facing services linked to your identity may have misconfigurations."

/-- The minimal-footprint message that replaces the summary when nothing was
found. -/
def minimal_footprint_message (total : Nat) (score : ℚ) : String :=
  "✅ Great news! Your digital footprint appears minimal across the " ++
    toString total ++ " platforms we checked. Privacy Threat Score: " ++
    fmt_score score ++ "/100."

/-- The parts list assembled by `_generate_summary` before joining.  The
membership tests on the `category_hits` dict are non-emptiness of the
corresponding hit lists. -/
def summary_parts (exposed total : Nat) (score : ℚ) (level : String)
    (results : List ScraperResult) : List String :=
  let parts : List String :=
    ["Scan complete. Your digital footprint was detected on " ++ toString exposed ++
       " out of " ++ toString total ++ " platforms checked.",
     "Overall Privacy Threat Score: " ++ fmt_score score ++ "/100 (" ++
       level.toUpper ++ ")."]
  let parts :=
    if category_hits RiskCategory.DATA_BREACH results = [] then parts
    else parts ++ [breach_sentence (category_hits RiskCategory.DATA_BREACH results).length]
  let parts :=
    if category_hits RiskCategory.INFRASTRUCTURE results = [] then parts
    else parts ++ [infra_sentence]
  if exposed = 0 then [minimal_footprint_message total score] else parts

/-- The `_generate_summary` helper: `" ".join(parts)`. -/
def generate_summary (exposed total : Nat) (score : ℚ) (level : String)
    (results : List ScraperResult) : String :=
  String.intercalate " " (summary_parts exposed total score level results)

/-- The data-breach recommendation block. -/
def breach_recs : List String :=
  ["🔑 CHANGE ALL PASSWORDS IMMEDIATELY on accounts associated with breached emails.",
   "🛡️ ENABLE MFA (Multi-Factor Authentication) on every account that supports it.",
   "📧 Consider using a password manager to generate unique passwords per site.",
   "🔍 Review the specific breaches listed and check what data types were exposed."]

/-- The infrastructure recommendation block. -/
def infra_recs : List String :=
  ["🔒 Audit all internet-facing services for misconfigurations and open ports.",
   "🛡️ Ensure firewalls and access controls are properly configured.",
   "📡 Close or restrict any unnecessary publicly-exposed services."]

/-- The phishing recommendation block. -/
def phishing_recs : List String :=
  ["📧 Be vigilant against spear-phishing emails referencing your professional details.",
   "🔐 Enable email filtering and anti-phishing protections.",
   "👥 Limit the professional information publicly visible on LinkedIn."]

/-- The impersonation recommendation block. -/
def impersonation_recs : List String :=
  ["👤 Review your Facebook privacy settings — restrict profile visibility to friends only.",
   "🔍 Search for impersonation accounts using your name and photos.",
   "📱 Enable login alerts on all social media accounts."]

/-- The stalking recommendation block. -/
def stalking_recs : List String :=
  ["📍 Disable location tagging on photos and posts.",
   "🔒 Set social media profiles to private where possible.",
   "🚫 Review and remove old posts that reveal personal routines or locations."]

/-- The reputational recommendation. -/
def reputational_rec : String :=
  "📝 Audit public posts and comments across forums for potentially damaging content."

/-- The two general recommendations added when anything was found. -/
def general_recs : List String :=
  ["📋 Use the Takedown feature to generate GDPR/CCPA data deletion requests.",
   "🔄 Schedule regular privacy audits (recommended: quarterly)."]

/-- The fallback recommendation when nothing was found. -/
def no_action_rec : String :=
  "✅ No immediate actions required. Keep monitoring your digital footprint periodically."

/-- The `_generate_recommendations` helper: category blocks in priority order,
then the general block when any result was found, with the no-action fallback
when the list would be empty. -/
def generate_recommendations (results : List ScraperResult) : List String :=
  let recs :=
    (if category_hits RiskCategory.DATA_BREACH results = [] then [] else breach_recs) ++
    (if category_hits RiskCategory.INFRASTRUCTURE results = [] then [] else infra_recs) ++
    (if category_hits RiskCategory.PHISHING results = [] then [] else phishing_recs) ++
    (if category_hits RiskCategory.IMPERSONATION results = [] then [] else impersonation_recs) ++
    (if category_hits RiskCategory.STALKING results = [] then [] else stalking_recs) ++
    (if category_hits RiskCategory.REPUTATIONAL results = [] then [] else [reputational_rec]) ++
    (if results.filter (·.found) = [] then [] else general_recs)
  if recs = [] then [no_action_rec] else recs

/-- The structured threat report returned by `analyze_findings`. -/
structure ThreatReport where
  overall_score : ℚ
  risk_level : String
  summary : String
  recommendations : List String
  category_scores : List CategoryScoreEntry
deriving DecidableEq

/-- The `analyze_findings` entry point of `ai/threat_scorer.py` (the local
Python names `exposed`, `total`, `score`, `level` are inlined). -/
def analyze_findings (results : List ScraperResult) : ThreatReport :=
  { overall_score := overall_score results
    risk_level := risk_level_of (overall_score results)
    summary := generate_summary (results.filter (·.found)).length results.length
      (overall_score results) (risk_level_of (overall_score results)) results
    recommendations := generate_recommendations results
    category_scores := category_scores results }

/-! ## Scraper registry and the per-probe runner (`scrapers/manager.py`) -/

/-- Static identity of one scraper class: its `platform_name` and
`risk_category` class attributes. -/
structure ScraperInfo where
  platform_name : String
  risk_category : String
deriving DecidableEq

/-- `settings.SCRAPER_TIMEOUT` (`config.py`): seconds per scraper. -/
def SCRAPER_TIMEOUT : Nat := 30

/-- `settings.MAX_CONCURRENT_SCRAPERS` (`config.py`): the semaphore cap.  The
cap bounds how many probes run at once; it does not affect which results are
collected, so it does not appear in the sequential result model below. -/
def MAX_CONCURRENT_SCRAPERS : Nat := 10

/-- `settings.DATA_TTL_HOURS` (`config.py`). -/
def DATA_TTL_HOURS : Int := 24

/-- The `_all_scrapers()` registry, in registration order, with the `platform_name` and `risk_category`. -/
def all_scrapers : List ScraperInfo :=
  [⟨"Facebook", "IMPERSONATION"⟩,
   ⟨"Instagram", "STALKING"⟩,
   ⟨"Twitter/X", "REPUTATIONAL"⟩,
   ⟨"TikTok", "STALKING"⟩,
   ⟨"Snapchat", "STALKING"⟩,
   ⟨"Pinterest", "REPUTATIONAL"⟩,
   ⟨"LinkedIn", "PHISHING"⟩,
   ⟨"GitHub", "REPUTATIONAL"⟩,
   ⟨"GitLab", "REPUTATIONAL"⟩,
   ⟨"Behance", "REPUTATIONAL"⟩,
   ⟨"HaveIBeenPwned", "DATA_BREACH"⟩,
   ⟨"Dehashed", "DATA_BREACH"⟩,
   ⟨"Shodan", "INFRASTRUCTURE"⟩,
   ⟨"Gravatar", "REPUTATIONAL"⟩,
   ⟨"Keybase", "REPUTATIONAL"⟩,
   ⟨"About.me", "REPUTATIONAL"⟩,
   ⟨"Reddit", "REPUTATIONAL"⟩,
   ⟨"StackOverflow", "REPUTATIONAL"⟩,
   ⟨"Medium", "REPUTATIONAL"⟩,
   ⟨"HackerNews", "REPUTATIONAL"⟩]

/-- How one probe invocation can end, at the boundary the runner observes:
the awaited `check` coroutine returns a result, `asyncio.wait_for` raises
`TimeoutError`, or `check` raises some other exception. -/
inductive CheckOutcome where
  | success (r : ScraperResult)
  | timeout
  | failure (msg : String)

/-- The `_not_found` helper of `scrapers/base.py`: a plain absence result. -/
def not_found_result (s : ScraperInfo) : ScraperResult :=
  { platform := s.platform_name, found := false, risk_category := s.risk_category }

/-- The `_run_single_scraper` runner of `scrapers/manager.py`: a total
function — both exceptional outcomes are caught and converted to a
`ScraperResult` with `found=False` and a populated `error`. -/
def run_single_scraper (s : ScraperInfo) (outcome : CheckOutcome) : ScraperResult :=
  match outcome with
  | .success r => r
  | .timeout =>
      { platform := s.platform_name, found := false,
        error := some ("Timeout after " ++ toString SCRAPER_TIMEOUT ++ "s"),
        risk_category := s.risk_category }
  | .failure msg =>
      { platform := s.platform_name, found := false, error := some msg,
        risk_category := s.risk_category }

/-- The result list collected by `asyncio.gather` in `run_scan`: one result
per registered scraper, in registration order (`gather` preserves submission
order regardless of completion order; the semaphore only schedules). -/
def scan_results (behavior : ScraperInfo → CheckOutcome) : List ScraperResult :=
  all_scrapers.map (fun s => run_single_scraper s (behavior s))

/-! ## Persisted rows (`database.py`) and the orchestrator -/

/-- One row of the `scan_tasks` table.  Timestamps are modelled as integer
seconds. -/
structure TaskRow where
  id : String
  query : String
  query_type : String
  status : String
  progress : Nat
  created_at : Int
  completed_at : Option Int
deriving DecidableEq

/-- One row of the `findings` table.  The table has exactly these data
columns — in particular it has no `error` column.  `data_found` stands for the
`json.dumps(result.data) if result.data else None` column; JSON serialisation
is injective on the mapping, so the column is modelled by the mapping
itself. -/
structure FindingRow where
  task_id : String
  platform : String
  url : Option String
  found : Nat
  data_found : Option (List (String × String))
  risk_category : String
  risk_score : ℚ
deriving DecidableEq

/-- One row of the `threat_reports` table. -/
structure ReportRow where
  task_id : String
  report : ThreatReport
deriving DecidableEq

/-- The database state: the three tables. -/
structure DB where
  tasks : List TaskRow
  findings : List FindingRow
  reports : List ReportRow
deriving DecidableEq

/-- The `Finding(...)` constructed from one `ScraperResult` in `run_scan`
(lines 148–156 of `scrapers/manager.py`).  Note that `result.error` is not
among the persisted columns. -/
def finding_of_result (task_id : String) (r : ScraperResult) : FindingRow :=
  { task_id := task_id
    platform := r.platform
    url := r.url
    found := if r.found then 1 else 0
    data_found := if r.data = [] then none else some r.data
    risk_category := r.risk_category
    risk_score := r.risk_score }

/-- Update the task row with the given id (the `session.get` + mutate
pattern). -/
def upd_task (tid : String) (f : TaskRow → TaskRow) (db : DB) : DB :=
  { db with tasks := db.tasks.map (fun t => if t.id == tid then f t else t) }

/-- Outcome of one `run_scan` invocation: the durable database state and the
exception that propagated out of the coroutine, if any (FastAPI background
tasks swallow it; no caller observes it). -/
structure ScanOutcome where
  db : DB
  error : Option String
deriving DecidableEq

/-- The `run_scan` orchestrator of `scrapers/manager.py`, with a fault oracle
for its four persistence points (commit 0: mark running; commit 1: findings
and progress; commit 2: threat report; commit 3: mark completed).  Each
session accumulates pending changes that become durable only at its commit;
a raising commit discards the pending changes of the session and aborts the
coroutine — `run_scan` itself has no exception handler. -/
def run_scan_faulty (commit_fails : Nat → Bool) (task_id query query_type : String)
    (now : Int) (behavior : ScraperInfo → CheckOutcome) (db : DB) : ScanOutcome :=
  let task_exists := db.tasks.any (fun t => t.id == task_id)
  -- session 1: mark the task running (commit only happens when the row exists)
  if task_exists && commit_fails 0 then { db := db, error := some "commit failed" } else
  let db1 := if task_exists then
      upd_task task_id (fun t => { t with status := "running", progress := 0 }) db
    else db
  let results := scan_results behavior
  -- session 2: insert one Finding per result and update progress (ending at 100)
  let pending2 := { db1 with findings := db1.findings ++ results.map (finding_of_result task_id) }
  let pending2 := if task_exists then upd_task task_id (fun t => { t with progress := 100 }) pending2
    else pending2
  if commit_fails 1 then { db := db1, error := some "commit failed" } else
  let db2 := pending2
  -- session 3 (`_generate_threat_report`): score the full result set, insert the report
  let pending3 := { db2 with reports := db2.reports ++ [⟨task_id, analyze_findings results⟩] }
  if commit_fails 2 then { db := db2, error := some "commit failed" } else
  let db3 := pending3
  -- session 4: mark the task completed
  if task_exists && commit_fails 3 then { db := db3, error := some "commit failed" } else
  let db4 := if task_exists then
      upd_task task_id
        (fun t => { t with status := "completed", progress := 100, completed_at := some now }) db3
    else db3
  { db := db4, error := none }

/-- `run_scan` on the fault-free path. -/
def run_scan (task_id query query_type : String) (now : Int)
    (behavior : ScraperInfo → CheckOutcome) (db : DB) : ScanOutcome :=
  run_scan_faulty (fun _ => false) task_id query query_type now behavior db

/-! ## Secure wipe (`utils/secure_wipe.py`) -/

/-- The `wipe_task_data` operation: returns `False` untouched when the task
row is absent; otherwise deletes the findings, the threat report and the task
row (one committed session) and returns `True`. -/
def wipe_task_data (task_id : String) (db : DB) : Bool × DB :=
  match db.tasks.find? (fun t => t.id == task_id) with
  | none => (false, db)
  | some _ =>
      (true,
       { tasks := db.tasks.filter (fun t => !(t.id == task_id))
         findings := db.findings.filter (fun f => !(f.task_id == task_id))
         reports := db.reports.filter (fun r => !(r.task_id == task_id)) })

/-- One database statement issued by `wipe_expired_tasks`, in the order the
source issues them. -/
inductive WipeOp where
  | delFindings (tid : String)
  | delReport (tid : String)
  | delTask (tid : String)
  | commit
deriving DecidableEq

/-- Effect of one statement on the pending state of the session (`commit` itself
changes no rows). -/
def apply_wipe_op : WipeOp → DB → DB
  | .delFindings tid, db =>
      { db with findings := db.findings.filter (fun f => !(f.task_id == tid)) }
  | .delReport tid, db =>
      { db with reports := db.reports.filter (fun r => !(r.task_id == tid)) }
  | .delTask tid, db =>
      { db with tasks := db.tasks.filter (fun t => !(t.id == tid)) }
  | .commit, db => db

/-- Run a statement sequence against the session, stopping at the first
statement the fault oracle makes raise.  Returns the statements actually
attempted (the raising one included) and — when none raised — the final
pending state. -/
def run_wipe_ops (fails : WipeOp → Bool) : List WipeOp → DB → List WipeOp × Option DB
  | [], pending => ([], some pending)
  | op :: rest, pending =>
      if fails op then ([op], none)
      else
        let next := run_wipe_ops fails rest (apply_wipe_op op pending)
        (op :: next.1, next.2)

/-- The statement sequence the sweep issues for a list of expired tasks:
for each task, its findings, then its threat report, then the task row. -/
def wipe_ops_for (ts : List TaskRow) : List WipeOp :=
  (ts.map (fun t => [WipeOp.delFindings t.id, WipeOp.delReport t.id, WipeOp.delTask t.id])).flatten

/-- The tasks selected by one sweep cycle: `created_at < now - timedelta(hours=ttl)`. -/
def expired_tasks (ttl_hours : Int) (now : Int) (db : DB) : List TaskRow :=
  db.tasks.filter (fun t => t.created_at < now - ttl_hours * 3600)

/-- Outcome of one sweep cycle: attempted statements, the returned wipe count
(`none` when an exception propagated to the caller), and the durable state. -/
structure SweepResult where
  trace : List WipeOp
  wiped : Option Nat
  db : DB
deriving DecidableEq

/-- The `wipe_expired_tasks` sweep of `utils/secure_wipe.py`, with a fault
oracle on the statements.  The single `commit` sits after the whole loop, so
a raising statement leaves the durable state untouched (the session rolls
back) and the remaining statements unattempted; `_auto_wipe_loop` in
`main.py` catches the exception and runs the next cycle an hour later. -/
def wipe_expired_tasks (ttl_hours now : Int) (fails : WipeOp → Bool) (db : DB) : SweepResult :=
  let expired := expired_tasks ttl_hours now db
  let ops := wipe_ops_for expired ++ [WipeOp.commit]
  let run := run_wipe_ops fails ops db
  match run.2 with
  | some pending => { trace := run.1, wiped := some expired.length, db := pending }
  | none => { trace := run.1, wiped := none, db := db }

/-- Removal of every row belonging to a set of task ids. -/
def purge (ids : List String) (db : DB) : DB :=
  { tasks := db.tasks.filter (fun t => !(ids.contains t.id))
    findings := db.findings.filter (fun f => !(ids.contains f.task_id))
    reports := db.reports.filter (fun r => !(ids.contains r.task_id)) }

/-- Referential integrity declared by the schema (`ForeignKey("scan_tasks.id")`,
non-nullable, on both child tables): every child row references an existing
task row. -/
def RefIntegrity (db : DB) : Prop :=
  (∀ f ∈ db.findings, ∃ t ∈ db.tasks, t.id = f.task_id) ∧
  (∀ r ∈ db.reports, ∃ t ∈ db.tasks, t.id = r.task_id)

/-! ## Spec-side formulas for the overall-score claim -/

/-- The overall-score formula in the words of the specification (§4.2 step 4):
`overall = 100 * (Σ cat_normalized_i * weight_i) / (Σ weight_i over ALL
categories, hit or not)`, and `0` when the denominator is `0`.  Stated for
comparison with the implementation; see the C1 theorems. -/
def spec_claimed_overall (results : List ScraperResult) : ℚ :=
  if (risk_categories.map category_weight).sum = 0 then 0
  else 100 * (risk_categories.map (fun c => normalized_score c results * category_weight c)).sum
        / (risk_categories.map category_weight).sum

/-- The corrected overall-score formula: the denominator is the sum of
`100 * weight_i` over all categories (the accumulated `max_possible_score`),
and the quotient is rounded to one decimal. -/
def spec_overall_amended (results : List ScraperResult) : ℚ :=
  round1 (if 0 < (risk_categories.map (fun c => 100 * category_weight c)).sum
          then 100 * (risk_categories.map (fun c => normalized_score c results * category_weight c)).sum
                / (risk_categories.map (fun c => 100 * category_weight c)).sum
          else 0)

/-! ## Shared helper lemmas -/

theorem analyze_overall (rs : List ScraperResult) :
    (analyze_findings rs).overall_score = overall_score rs := rfl

theorem analyze_level (rs : List ScraperResult) :
    (analyze_findings rs).risk_level = risk_level_of (overall_score rs) := rfl

theorem analyze_summary (rs : List ScraperResult) :
    (analyze_findings rs).summary =
      generate_summary (rs.filter (·.found)).length rs.length (overall_score rs)
        (risk_level_of (overall_score rs)) rs := rfl

theorem analyze_recs (rs : List ScraperResult) :
    (analyze_findings rs).recommendations = generate_recommendations rs := rfl

theorem analyze_cat_scores (rs : List ScraperResult) :
    (analyze_findings rs).category_scores = category_scores rs := rfl

/-- A fully-found HaveIBeenPwned result (what `HIBPScraper` returns via `_ok`
with no extra data fields), used as concrete input in several witnesses. -/
def hibp_found_result : ScraperResult :=
  { platform := "HaveIBeenPwned", url := some "https://haveibeenpwned.com",
    found := true, risk_category := "DATA_BREACH" }

/-- Evaluation rule for `round1` away from ties. -/
theorem round1_eq_int (q : ℚ) (z : ℤ) (h1 : (z : ℚ) - 1/2 ≤ q * 10)
    (h2 : q * 10 < z + 1/2) : round1 q = (z : ℚ) / 10 := by
  have hz : round (q * 10) = z := by
    rw [round_eq]
    refine Int.floor_eq_iff.mpr ⟨by linarith, by linarith⟩
  unfold round1
  rw [hz]

theorem max_possible_eq : max_possible_score = 100 := by
  norm_num [max_possible_score, risk_categories, category_weight]

theorem hibp_hits (c : RiskCategory) :
    category_hits c [hibp_found_result] =
      if c = RiskCategory.DATA_BREACH then [hibp_found_result] else [] := by
  cases c <;> rfl

theorem platform_score_hibp : platform_score hibp_found_result = 19/2 := by
  have hb : base_score hibp_found_result.platform = 19/2 := rfl
  rw [platform_score, hb]
  norm_num [data_bonus, hibp_found_result, min_def]

theorem normalized_hibp_db :
    normalized_score RiskCategory.DATA_BREACH [hibp_found_result] = 95/3 := by
  have h := hibp_hits RiskCategory.DATA_BREACH
  rw [if_pos rfl] at h
  simp only [normalized_score, h, cat_raw_score]
  norm_num [platform_score_hibp, min_def]

theorem normalized_hibp_ne (c : RiskCategory) (hc : c ≠ RiskCategory.DATA_BREACH) :
    normalized_score c [hibp_found_result] = 0 := by
  have h := hibp_hits c
  rw [if_neg hc] at h
  simp [normalized_score, h]

theorem tw_hibp : total_weighted_score [hibp_found_result] = 19/2 := by
  simp only [total_weighted_score, risk_categories, List.map_cons, List.map_nil,
    List.sum_cons, List.sum_nil]
  rw [normalized_hibp_ne RiskCategory.IMPERSONATION (by decide),
    normalized_hibp_ne RiskCategory.PHISHING (by decide),
    normalized_hibp_ne RiskCategory.STALKING (by decide),
    normalized_hibp_ne RiskCategory.REPUTATIONAL (by decide),
    normalized_hibp_ne RiskCategory.INFRASTRUCTURE (by decide),
    normalized_hibp_db]
  norm_num [category_weight]

theorem overall_hibp : overall_score [hibp_found_result] = 19/2 := by
  rw [overall_score, max_possible_eq, if_pos (by norm_num), tw_hibp]
  rw [show (19:ℚ)/2 / 100 * 100 = 19/2 by norm_num]
  rw [round1_eq_int _ 95 (by norm_num) (by norm_num)]
  norm_num

/-! ## Claim C1 — overall-score formula -/

/-- Claim C1, counterexample: on the single-HIBP-hit input the scorer returns
`9.5`, while the formula of the claim — `100 * (Σ normalized·weight) / (Σ
weight)` with the weights summing to `1.00` — gives `950`; the stated
equality of the claim is false at this input. -/
theorem C1_counterexample :
    (analyze_findings [hibp_found_result]).overall_score ≠
      spec_claimed_overall [hibp_found_result] := by
  have hden : (risk_categories.map category_weight).sum = 1 := by
    norm_num [risk_categories, category_weight]
  have hnum : (risk_categories.map
      (fun c => normalized_score c [hibp_found_result] * category_weight c)).sum = 19/2 :=
    tw_hibp
  rw [analyze_overall, overall_hibp, spec_claimed_overall, hden, hnum, if_neg (by norm_num)]
  norm_num

/-- Claim C1 (amended): for every result list the overall score equals
`100 * (Σ cat_normalized_i * weight_i)` divided by `Σ (100 * weight_i)` over
all six categories (equivalently `(Σ n·w)/(Σ w)`), rounded to one decimal,
and `0` when that denominator is `0`. -/
theorem C1_overall_formula (results : List ScraperResult) :
    (analyze_findings results).overall_score = spec_overall_amended results := by
  rw [analyze_overall]
  unfold overall_score spec_overall_amended total_weighted_score max_possible_score
  congr 1
  split
  · ring
  · rfl

/-! ## Claim C6 — zero-exposure scans -/

theorem found_filter_nil {l : List ScraperResult} (h : ∀ r ∈ l, r.found = false) :
    l.filter (·.found) = [] := by
  induction l with
  | nil => rfl
  | cons a t ih =>
      have ha : a.found = false := h a (List.mem_cons_self a t)
      have ht : ∀ r ∈ t, r.found = false := fun r hr => h r (List.mem_cons_of_mem a hr)
      simp [List.filter_cons, ha, ih ht]

theorem category_hits_of_not_found (c : RiskCategory) {l : List ScraperResult}
    (h : ∀ r ∈ l, r.found = false) : category_hits c l = [] := by
  induction l with
  | nil => rfl
  | cons a t ih =>
      have ha : a.found = false := h a (List.mem_cons_self a t)
      have ht : ∀ r ∈ t, r.found = false := fun r hr => h r (List.mem_cons_of_mem a hr)
      simp [category_hits, List.filter_cons, ha]
      simpa [category_hits] using ih ht

theorem tw_of_not_found {l : List ScraperResult} (h : ∀ r ∈ l, r.found = false) :
    total_weighted_score l = 0 := by
  have hn : ∀ c, normalized_score c l = 0 := fun c => by
    simp [normalized_score, category_hits_of_not_found c h]
  simp [total_weighted_score, risk_categories, hn]

theorem overall_of_not_found {l : List ScraperResult} (h : ∀ r ∈ l, r.found = false) :
    overall_score l = 0 := by
  rw [overall_score, max_possible_eq, if_pos (by norm_num), tw_of_not_found h]
  norm_num [round1]

theorem intercalate_one (s a : String) : String.intercalate s [a] = a := rfl

/-- Claim C6: when no probe result is found, the summary is exactly the single
minimal-footprint message, the recommendations are exactly the single
no-action entry, the overall score is `0`, and the risk level is `low`. -/
theorem C6_zero_found (results : List ScraperResult) (h : ∀ r ∈ results, r.found = false) :
    (analyze_findings results).summary = minimal_footprint_message results.length 0
    ∧ (analyze_findings results).recommendations = [no_action_rec]
    ∧ (analyze_findings results).overall_score = 0
    ∧ (analyze_findings results).risk_level = "low" := by
  have hfil : results.filter (·.found) = [] := found_filter_nil h
  have hov : overall_score results = 0 := overall_of_not_found h
  refine ⟨?_, ?_, ?_, ?_⟩
  · rw [analyze_summary, hfil, hov]
    simp [generate_summary, summary_parts, intercalate_one]
  · rw [analyze_recs]
    simp [generate_recommendations, category_hits_of_not_found _ h, hfil,
      breach_recs, infra_recs, phishing_recs, impersonation_recs, stalking_recs]
  · rw [analyze_overall]
    exact hov
  · rw [analyze_level, hov]
    norm_num [risk_level_of]

/-- A Reddit probe absence result, concrete input of the C6 witness. -/
def reddit_not_found : ScraperResult := not_found_result ⟨"Reddit", "REPUTATIONAL"⟩

/-- Witness for C6 at the one-element all-miss input. -/
theorem C6_zero_found_witness :
    (analyze_findings [reddit_not_found]).summary = minimal_footprint_message 1 0
    ∧ (analyze_findings [reddit_not_found]).recommendations = [no_action_rec]
    ∧ (analyze_findings [reddit_not_found]).overall_score = 0
    ∧ (analyze_findings [reddit_not_found]).risk_level = "low" :=
  C6_zero_found [reddit_not_found] (by decide)

/-! ## Claim C2 — single breach hit scenario -/

theorem category_hits_append (c : RiskCategory) (l1 l2 : List ScraperResult) :
    category_hits c (l1 ++ l2) = category_hits c l1 ++ category_hits c l2 := by
  simp [category_hits, List.filter_append]

theorem category_hits_cons (c : RiskCategory) (a : ScraperResult) (l : List ScraperResult) :
    category_hits c (a :: l) =
      (if a.found && (eff_category a == c.value) then [a] else []) ++ category_hits c l := by
  simp only [category_hits, List.filter_cons]
  split <;> simp

theorem overall_score_eq_round1_tw (l : List ScraperResult) :
    overall_score l = round1 (total_weighted_score l) := by
  rw [overall_score, max_possible_eq, if_pos (by norm_num)]
  congr 1
  field_simp

theorem intercalate_three (a b c : String) :
    String.intercalate " " [a, b, c] = a ++ " " ++ b ++ " " ++ c := rfl

/-- Claim C2: for an input with exactly one found result, on a platform with
base score `9.5`, category `DATA_BREACH` and no data fields, the report has
DATA_BREACH category score `31.7`, overall score `9.5`, risk level `low`,
the breach recommendation block (followed by the general block), and a summary
ending in the critical breach warning sentence. -/
theorem C2_single_breach_hit (pre post : List ScraperResult) (r : ScraperResult)
    (hf : r.found = true) (hbase : base_score r.platform = 19/2)
    (hcat : r.risk_category = "DATA_BREACH") (hdata : r.data = [])
    (hrest : ∀ s ∈ pre ++ post, s.found = false) :
    (∀ e ∈ (analyze_findings (pre ++ r :: post)).category_scores,
        e.category = "DATA_BREACH" → e.score = 317/10)
    ∧ "DATA_BREACH" ∈ ((analyze_findings (pre ++ r :: post)).category_scores).map (·.category)
    ∧ (analyze_findings (pre ++ r :: post)).overall_score = 19/2
    ∧ (analyze_findings (pre ++ r :: post)).risk_level = "low"
    ∧ (analyze_findings (pre ++ r :: post)).recommendations = breach_recs ++ general_recs
    ∧ ∃ a, (analyze_findings (pre ++ r :: post)).summary = a ++ breach_sentence 1 := by
  have hpre : ∀ s ∈ pre, s.found = false := fun s hs => hrest s (List.mem_append_left _ hs)
  have hpost : ∀ s ∈ post, s.found = false := fun s hs => hrest s (List.mem_append_right _ hs)
  have heff : eff_category r = "DATA_BREACH" := by simp [eff_category, hcat]
  have hhits : ∀ c, category_hits c (pre ++ r :: post) =
      if c = RiskCategory.DATA_BREACH then [r] else [] := by
    intro c
    rw [category_hits_append, category_hits_cons, category_hits_of_not_found c hpre,
      category_hits_of_not_found c hpost]
    cases c <;> simp [hf, heff, RiskCategory.value]
  have hdb : category_hits RiskCategory.DATA_BREACH (pre ++ r :: post) = [r] := by
    have h0 := hhits RiskCategory.DATA_BREACH
    rwa [if_pos rfl] at h0
  have hne : ∀ c, c ≠ RiskCategory.DATA_BREACH →
      category_hits c (pre ++ r :: post) = [] := by
    intro c hc
    have h0 := hhits c
    rwa [if_neg hc] at h0
  have hfil : (pre ++ r :: post).filter (·.found) = [r] := by
    simp [List.filter_append, List.filter_cons, hf, found_filter_nil hpre,
      found_filter_nil hpost]
  have hps : platform_score r = 19/2 := by
    rw [platform_score, hbase]
    norm_num [data_bonus, hdata, min_def]
  have hnorm_db : normalized_score RiskCategory.DATA_BREACH (pre ++ r :: post) = 95/3 := by
    simp [normalized_score, hdb, cat_raw_score, hps]
    norm_num [min_def]
  have htw : total_weighted_score (pre ++ r :: post) = 19/2 := by
    simp only [total_weighted_score, risk_categories, List.map_cons, List.map_nil,
      List.sum_cons, List.sum_nil]
    rw [show normalized_score RiskCategory.IMPERSONATION (pre ++ r :: post) = 0 by
          simp [normalized_score, hne RiskCategory.IMPERSONATION (by decide)],
      show normalized_score RiskCategory.PHISHING (pre ++ r :: post) = 0 by
          simp [normalized_score, hne RiskCategory.PHISHING (by decide)],
      show normalized_score RiskCategory.STALKING (pre ++ r :: post) = 0 by
          simp [normalized_score, hne RiskCategory.STALKING (by decide)],
      show normalized_score RiskCategory.REPUTATIONAL (pre ++ r :: post) = 0 by
          simp [normalized_score, hne RiskCategory.REPUTATIONAL (by decide)],
      show normalized_score RiskCategory.INFRASTRUCTURE (pre ++ r :: post) = 0 by
          simp [normalized_score, hne RiskCategory.INFRASTRUCTURE (by decide)],
      hnorm_db]
    norm_num [category_weight]
  have hov : overall_score (pre ++ r :: post) = 19/2 := by
    rw [overall_score_eq_round1_tw, htw,
      round1_eq_int _ 95 (by norm_num) (by norm_num)]
    norm_num
  refine ⟨?_, ?_, ?_, ?_, ?_, ?_⟩
  · intro e he hecat
    rw [analyze_cat_scores] at he
    simp only [category_scores, risk_categories, List.map_cons, List.map_nil,
      List.mem_cons, List.not_mem_nil, or_false] at he
    rcases he with rfl | rfl | rfl | rfl | rfl | rfl
    · exact ((by decide : ("IMPERSONATION" : String) ≠ "DATA_BREACH") hecat).elim
    · exact ((by decide : ("PHISHING" : String) ≠ "DATA_BREACH") hecat).elim
    · exact ((by decide : ("STALKING" : String) ≠ "DATA_BREACH") hecat).elim
    · exact ((by decide : ("REPUTATIONAL" : String) ≠ "DATA_BREACH") hecat).elim
    · show round1 (normalized_score RiskCategory.DATA_BREACH (pre ++ r :: post)) = 317/10
      rw [hnorm_db, round1_eq_int _ 317 (by norm_num) (by norm_num)]
      norm_num
    · exact ((by decide : ("INFRASTRUCTURE" : String) ≠ "DATA_BREACH") hecat).elim
  · rw [analyze_cat_scores]
    simp [category_scores, risk_categories, RiskCategory.value]
  · rw [analyze_overall]
    exact hov
  · rw [analyze_level, hov]
    norm_num [risk_level_of]
  · rw [analyze_recs]
    simp only [generate_recommendations, hdb,
      hne RiskCategory.INFRASTRUCTURE (by decide),
      hne RiskCategory.PHISHING (by decide),
      hne RiskCategory.IMPERSONATION (by decide),
      hne RiskCategory.STALKING (by decide),
      hne RiskCategory.REPUTATIONAL (by decide), hfil]
    simp [breach_recs, general_recs]
  · rw [analyze_summary, hfil]
    simp only [generate_summary, summary_parts, hdb,
      hne RiskCategory.INFRASTRUCTURE (by decide), List.length_cons, List.length_nil]
    simp only [List.cons_ne_self, if_neg (by simp : ¬([r] : List ScraperResult) = []),
      if_pos rfl]
    simp only [List.append_nil, List.cons_append, List.nil_append, one_ne_zero, if_false]
    exact ⟨_, intercalate_three _ _ _⟩

/-- Witness for C2 at the concrete single-HIBP-hit input. -/
theorem C2_single_breach_hit_witness :
    "DATA_BREACH" ∈ ((analyze_findings [hibp_found_result]).category_scores).map (·.category)
    ∧ (analyze_findings [hibp_found_result]).overall_score = 19/2
    ∧ (analyze_findings [hibp_found_result]).risk_level = "low"
    ∧ (analyze_findings [hibp_found_result]).recommendations = breach_recs ++ general_recs := by
  have h := C2_single_breach_hit [] [] hibp_found_result rfl rfl rfl rfl (by simp)
  exact ⟨h.2.1, h.2.2.1, h.2.2.2.1, h.2.2.2.2.1⟩

/-! ## Claim C7 — monotonicity of the overall score in `found` -/

theorem lookup_snd_nonneg {l : List (String × ℚ)} (hl : ∀ x ∈ l, 0 ≤ x.2)
    {p : String} {d : ℚ} (hd : 0 ≤ d) : 0 ≤ ((l.lookup p).getD d) := by
  induction l with
  | nil => simpa [List.lookup]
  | cons a t ih =>
      obtain ⟨k, v⟩ := a
      have hv : (0:ℚ) ≤ v := hl ⟨k, v⟩ (List.mem_cons_self _ _)
      have ht : ∀ x ∈ t, 0 ≤ x.2 := fun x hx => hl x (List.mem_cons_of_mem _ hx)
      simp only [List.lookup]
      cases hpk : p == k
      · simpa using ih ht
      · simpa using hv

theorem base_score_nonneg (p : String) : 0 ≤ base_score p := by
  apply lookup_snd_nonneg _ (by norm_num)
  intro x hx
  simp only [PLATFORM_BASE_SCORES] at hx
  fin_cases hx <;> norm_num

theorem data_bonus_nonneg (r : ScraperResult) : 0 ≤ data_bonus r := by
  unfold data_bonus
  split
  · norm_num
  · exact le_min (mul_nonneg (Nat.cast_nonneg _) (by norm_num)) (by norm_num)

theorem platform_score_nonneg (r : ScraperResult) : 0 ≤ platform_score r :=
  le_min (add_nonneg (base_score_nonneg _) (data_bonus_nonneg _)) (by norm_num)

theorem weight_nonneg (c : RiskCategory) : 0 ≤ category_weight c := by
  cases c <;> norm_num [category_weight]

theorem round1_mono {a b : ℚ} (h : a ≤ b) : round1 a ≤ round1 b := by
  unfold round1
  have h2 : round (a * 10) ≤ round (b * 10) := by
    rw [round_eq, round_eq]
    exact Int.floor_mono (by linarith)
  have h3 : ((round (a * 10) : ℤ) : ℚ) ≤ ((round (b * 10) : ℤ) : ℚ) := by exact_mod_cast h2
  linarith

theorem normalized_flip_le (c : RiskCategory) (pre post : List ScraperResult)
    (r : ScraperResult) (hr : r.found = false) :
    normalized_score c (pre ++ r :: post) ≤
      normalized_score c (pre ++ { r with found := true } :: post) := by
  have hr' : ({ r with found := true } : ScraperResult).found = true := rfl
  have heff : eff_category { r with found := true } = eff_category r := rfl
  have h1 : category_hits c (pre ++ r :: post) =
      category_hits c pre ++ category_hits c post := by
    rw [category_hits_append, category_hits_cons]
    simp [hr]
  by_cases hc : (eff_category r == c.value) = true
  · have h2 : category_hits c (pre ++ { r with found := true } :: post) =
        category_hits c pre ++ ({ r with found := true } :: category_hits c post) := by
      rw [category_hits_append, category_hits_cons]
      simp [hr', heff, hc]
    have hnn := platform_score_nonneg { r with found := true }
    unfold normalized_score cat_raw_score
    rw [h1, h2]
    by_cases hemp : category_hits c pre ++ category_hits c post = ([] : List ScraperResult)
    · rw [if_pos hemp, if_neg (by simp)]
      rcases List.append_eq_nil.mp hemp with ⟨hp, hq⟩
      rw [hp, hq]
      refine le_min ?_ (by norm_num)
      simp only [List.nil_append, List.map_cons, List.map_nil, List.sum_cons, List.sum_nil]
      exact mul_nonneg (div_nonneg (by linarith) (by norm_num)) (by norm_num)
    · rw [if_neg hemp, if_neg (by simp)]
      simp only [List.map_append, List.sum_append, List.map_cons, List.sum_cons]
      refine min_le_min ?_ le_rfl
      refine mul_le_mul_of_nonneg_right ?_ (by norm_num)
      exact (div_le_div_iff_of_pos_right (by norm_num : (0:ℚ) < 30)).mpr (by linarith)
  · have hcf : (eff_category r == c.value) = false := by
      simpa using hc
    have h2 : category_hits c (pre ++ { r with found := true } :: post) =
        category_hits c pre ++ category_hits c post := by
      rw [category_hits_append, category_hits_cons]
      simp [hr', heff, hcf]
    unfold normalized_score cat_raw_score
    rw [h1, h2]

theorem tw_flip_le (pre post : List ScraperResult) (r : ScraperResult) (hr : r.found = false) :
    total_weighted_score (pre ++ r :: post) ≤
      total_weighted_score (pre ++ { r with found := true } :: post) := by
  unfold total_weighted_score
  apply List.sum_le_sum
  intro c hc
  exact mul_le_mul_of_nonneg_right (normalized_flip_le c pre post r hr) (weight_nonneg c)

/-- Claim C7: flipping the `found` flag of one result from false to true, all other
fields of all results unchanged, never decreases the overall score. -/
theorem C7_found_flip_monotone (pre post : List ScraperResult) (r : ScraperResult)
    (hr : r.found = false) :
    (analyze_findings (pre ++ r :: post)).overall_score ≤
      (analyze_findings (pre ++ { r with found := true } :: post)).overall_score := by
  rw [analyze_overall, analyze_overall, overall_score_eq_round1_tw, overall_score_eq_round1_tw]
  exact round1_mono (tw_flip_le pre post r hr)

/-- Witness for C7 at a concrete one-element input. -/
theorem C7_found_flip_monotone_witness :
    reddit_not_found.found = false
    ∧ (analyze_findings [reddit_not_found]).overall_score ≤
        (analyze_findings [{ reddit_not_found with found := true }]).overall_score :=
  ⟨rfl, C7_found_flip_monotone [] [] reddit_not_found rfl⟩

/-! ## Claim C10 — independence from the probe-supplied risk_score -/

/-- Erasure of the one field the hyperproperty quantifies over. -/
def erase_risk_score (r : ScraperResult) : ScraperResult := { r with risk_score := 0 }

theorem hits_erase (c : RiskCategory) (rs : List ScraperResult) :
    category_hits c (rs.map erase_risk_score) = (category_hits c rs).map erase_risk_score := by
  unfold category_hits
  rw [List.filter_map]
  rfl

theorem raw_erase (c : RiskCategory) (rs : List ScraperResult) :
    cat_raw_score c (rs.map erase_risk_score) = cat_raw_score c rs := by
  unfold cat_raw_score
  rw [hits_erase, List.map_map]
  rfl

theorem warnings_erase (c : RiskCategory) (rs : List ScraperResult) :
    cat_warnings c (rs.map erase_risk_score) = cat_warnings c rs := by
  unfold cat_warnings
  rw [hits_erase, List.filterMap_map]
  rfl

theorem normalized_erase (c : RiskCategory) (rs : List ScraperResult) :
    normalized_score c (rs.map erase_risk_score) = normalized_score c rs := by
  unfold normalized_score
  rw [hits_erase, raw_erase]
  by_cases h : category_hits c rs = []
  · rw [h]
    simp
  · rw [if_neg h, if_neg (fun hh => h (by simpa using hh))]

theorem tw_erase (rs : List ScraperResult) :
    total_weighted_score (rs.map erase_risk_score) = total_weighted_score rs := by
  unfold total_weighted_score
  simp only [normalized_erase]

theorem overall_erase (rs : List ScraperResult) :
    overall_score (rs.map erase_risk_score) = overall_score rs := by
  rw [overall_score_eq_round1_tw, overall_score_eq_round1_tw, tw_erase]

theorem found_filter_erase (rs : List ScraperResult) :
    (rs.map erase_risk_score).filter (·.found) = (rs.filter (·.found)).map erase_risk_score := by
  rw [List.filter_map]
  rfl

theorem summary_erase (e t : Nat) (s : ℚ) (lv : String) (rs : List ScraperResult) :
    generate_summary e t s lv (rs.map erase_risk_score) = generate_summary e t s lv rs := by
  simp only [generate_summary, summary_parts, hits_erase, List.map_eq_nil_iff,
    List.length_map]

theorem recs_erase (rs : List ScraperResult) :
    generate_recommendations (rs.map erase_risk_score) = generate_recommendations rs := by
  simp only [generate_recommendations, hits_erase, List.map_eq_nil_iff, found_filter_erase]

theorem platform_comp_erase :
    ((fun x => x.platform) ∘ erase_risk_score : ScraperResult → String) =
      fun x => x.platform := rfl

theorem cat_scores_erase (rs : List ScraperResult) :
    category_scores (rs.map erase_risk_score) = category_scores rs := by
  unfold category_scores
  simp only [normalized_erase, warnings_erase, hits_erase, List.map_map, platform_comp_erase]

theorem analyze_erase (rs : List ScraperResult) :
    analyze_findings (rs.map erase_risk_score) = analyze_findings rs := by
  unfold analyze_findings
  rw [found_filter_erase, List.length_map, List.length_map, overall_erase,
    summary_erase, recs_erase, cat_scores_erase]

/-- Claim C10: the threat report does not depend on the probe-supplied
`risk_score` fields — two inputs equal up to those fields yield identical
reports. -/
theorem C10_risk_score_independent (rs1 rs2 : List ScraperResult)
    (h : rs1.map erase_risk_score = rs2.map erase_risk_score) :
    analyze_findings rs1 = analyze_findings rs2 := by
  calc analyze_findings rs1
      = analyze_findings (rs1.map erase_risk_score) := (analyze_erase rs1).symm
    _ = analyze_findings (rs2.map erase_risk_score) := by rw [h]
    _ = analyze_findings rs2 := analyze_erase rs2

/-- Witness for C10: two one-element inputs differing only in `risk_score`. -/
theorem C10_risk_score_independent_witness :
    [hibp_found_result].map erase_risk_score
      = [{ hibp_found_result with risk_score := 7 }].map erase_risk_score
    ∧ analyze_findings [hibp_found_result]
        = analyze_findings [{ hibp_found_result with risk_score := 7 }] :=
  ⟨rfl, C10_risk_score_independent _ _ rfl⟩

/-! ## Claim C4 — persisted findings for failed probes -/

/-- Claim C4, counterexample: a timed-out HIBP probe produces a runner result
whose `error` is populated while a plain absence result has `error = none`,
yet the two persisted `Finding` rows are identical — the findings table has no
`error` column, so the persisted Finding of a failed probe does not carry an
error description distinct from mere absence. -/
theorem C4_counterexample :
    (run_single_scraper ⟨"HaveIBeenPwned", "DATA_BREACH"⟩ CheckOutcome.timeout).error.isSome = true
    ∧ (not_found_result ⟨"HaveIBeenPwned", "DATA_BREACH"⟩).error = none
    ∧ finding_of_result "task-1"
        (run_single_scraper ⟨"HaveIBeenPwned", "DATA_BREACH"⟩ CheckOutcome.timeout)
      = finding_of_result "task-1" (not_found_result ⟨"HaveIBeenPwned", "DATA_BREACH"⟩) := by
  decide

/-- Claim C4 (amended): for every probe that times out or fails, the
`ProbeResult` returned by the runner carries `found=false` and an error
mentioning the cause, and the persisted `Finding` carries `found=0` — but the
error description is not persisted (the `findings` table has no error column),
so the stored row of a timed-out probe equals that of a mere absence. -/
theorem C4_failed_probe_rows (s : ScraperInfo) (msg tid : String) :
    (run_single_scraper s CheckOutcome.timeout).found = false
    ∧ (run_single_scraper s CheckOutcome.timeout).error = some "Timeout after 30s"
    ∧ (run_single_scraper s (CheckOutcome.failure msg)).found = false
    ∧ (run_single_scraper s (CheckOutcome.failure msg)).error = some msg
    ∧ (finding_of_result tid (run_single_scraper s CheckOutcome.timeout)).found = 0
    ∧ (finding_of_result tid (run_single_scraper s (CheckOutcome.failure msg))).found = 0
    ∧ finding_of_result tid (run_single_scraper s CheckOutcome.timeout)
        = finding_of_result tid (not_found_result s) :=
  ⟨rfl, rfl, rfl, rfl, rfl, rfl, rfl⟩

/-! ## Claim C3 — one finding per registered platform, runner totality -/

theorem run_single_platform (behavior : ScraperInfo → CheckOutcome)
    (hwb : ∀ s r, behavior s = CheckOutcome.success r → r.platform = s.platform_name) :
    ∀ s, (run_single_scraper s (behavior s)).platform = s.platform_name := by
  intro s
  cases hbs : behavior s with
  | success r => exact hwb s r hbs
  | timeout => rfl
  | failure m => rfl

theorem scan_results_platforms (behavior : ScraperInfo → CheckOutcome)
    (hwb : ∀ s r, behavior s = CheckOutcome.success r → r.platform = s.platform_name) :
    (scan_results behavior).map (·.platform) = all_scrapers.map (·.platform_name) := by
  unfold scan_results
  rw [List.map_map]
  exact List.map_congr_left (fun s _ => run_single_platform behavior hwb s)

theorem run_scan_clean_error (task_id query query_type : String) (now : Int)
    (behavior : ScraperInfo → CheckOutcome) (db : DB) :
    (run_scan task_id query query_type now behavior db).error = none := by
  by_cases htask : db.tasks.any (fun t => t.id == task_id) = true
  · simp [run_scan, run_scan_faulty, htask]
  · simp [run_scan, run_scan_faulty, htask]

theorem run_scan_clean_findings (task_id query query_type : String) (now : Int)
    (behavior : ScraperInfo → CheckOutcome) (db : DB) :
    (run_scan task_id query query_type now behavior db).db.findings
      = db.findings ++ (scan_results behavior).map (finding_of_result task_id) := by
  by_cases htask : db.tasks.any (fun t => t.id == task_id) = true
  · simp [run_scan, run_scan_faulty, htask, upd_task]
  · simp [run_scan, run_scan_faulty, htask, upd_task]

/-- Claim C3: a fault-free scan produces exactly one `ScraperResult` per
registered scraper (N = 20), persists exactly the corresponding findings —
one per registered platform, the platform names being pairwise distinct —
whatever the probes do; and the runner is total, turning timeouts and
exceptions into `found=false` results with a populated error. -/
theorem C3_one_finding_per_platform (behavior : ScraperInfo → CheckOutcome)
    (task_id query query_type : String) (now : Int) (db : DB)
    (s0 : ScraperInfo) (msg : String)
    (hwb : ∀ s r, behavior s = CheckOutcome.success r → r.platform = s.platform_name) :
    (run_scan task_id query query_type now behavior db).error = none
    ∧ (scan_results behavior).length = 20
    ∧ (run_scan task_id query query_type now behavior db).db.findings
        = db.findings ++ (scan_results behavior).map (finding_of_result task_id)
    ∧ ((scan_results behavior).map (finding_of_result task_id)).map (·.platform)
        = all_scrapers.map (·.platform_name)
    ∧ (all_scrapers.map (·.platform_name)).Nodup
    ∧ (run_single_scraper s0 CheckOutcome.timeout).found = false
    ∧ (run_single_scraper s0 CheckOutcome.timeout).error.isSome = true
    ∧ (run_single_scraper s0 (CheckOutcome.failure msg)).found = false
    ∧ (run_single_scraper s0 (CheckOutcome.failure msg)).error.isSome = true := by
  refine ⟨run_scan_clean_error _ _ _ _ _ _, rfl,
    run_scan_clean_findings _ _ _ _ _ _, ?_, by decide, rfl, rfl, rfl, rfl⟩
  rw [List.map_map]
  have h0 : ((fun x => x.platform) ∘ finding_of_result task_id : ScraperResult → String)
      = fun r => r.platform := rfl
  rw [h0]
  exact scan_results_platforms behavior hwb

/-- The all-timeout probe behaviour, concrete input of several witnesses. -/
def behavior_timeout : ScraperInfo → CheckOutcome := fun _ => CheckOutcome.timeout

/-- An empty database. -/
def db_empty : DB := { tasks := [], findings := [], reports := [] }

/-- Witness for C3 with every probe timing out against an empty database. -/
theorem C3_one_finding_per_platform_witness :
    (run_scan "T" "alice" "email" 0 behavior_timeout db_empty).error = none
    ∧ (scan_results behavior_timeout).length = 20
    ∧ (run_scan "T" "alice" "email" 0 behavior_timeout db_empty).db.findings
        = db_empty.findings ++ (scan_results behavior_timeout).map (finding_of_result "T")
    ∧ ((scan_results behavior_timeout).map (finding_of_result "T")).map (·.platform)
        = all_scrapers.map (·.platform_name)
    ∧ (all_scrapers.map (·.platform_name)).Nodup
    ∧ (run_single_scraper ⟨"Shodan", "INFRASTRUCTURE"⟩ CheckOutcome.timeout).found = false
    ∧ (run_single_scraper ⟨"Shodan", "INFRASTRUCTURE"⟩ CheckOutcome.timeout).error.isSome = true
    ∧ (run_single_scraper ⟨"Shodan", "INFRASTRUCTURE"⟩ (CheckOutcome.failure "boom")).found = false
    ∧ (run_single_scraper ⟨"Shodan", "INFRASTRUCTURE"⟩
         (CheckOutcome.failure "boom")).error.isSome = true :=
  C3_one_finding_per_platform behavior_timeout "T" "alice" "email" 0 db_empty
    ⟨"Shodan", "INFRASTRUCTURE"⟩ "boom" (fun s r h => (nomatch h))

/-! ## Claim C5 — no failed status, task stuck in running -/

/-- Concrete database for C5: one pending task. -/
def db_c5 : DB :=
  { tasks := [⟨"T", "alice", "email", "pending", 0, 0, none⟩]
    findings := []
    reports := [] }

/-- Claim C5 (code bug): when the findings-persistence commit raises, the
exception propagates out of `run_scan` (nothing in the repository ever writes
status `"failed"`), and the durable state leaves the task at status
`"running"` forever — contradicting both the claim and the polling contract
documented in `api/results.py` (poll until `"completed"` or `"failed"`). -/
theorem C5_fault_leaves_task_running :
    (run_scan_faulty (fun k => k == 1) "T" "alice" "email" 100
        (fun _ => CheckOutcome.timeout) db_c5).error = some "commit failed"
    ∧ (run_scan_faulty (fun k => k == 1) "T" "alice" "email" 100
        (fun _ => CheckOutcome.timeout) db_c5).db.tasks.map (·.status) = ["running"]
    ∧ "failed" ∉ (run_scan_faulty (fun k => k == 1) "T" "alice" "email" 100
        (fun _ => CheckOutcome.timeout) db_c5).db.tasks.map (·.status) :=
  ⟨rfl, rfl, by decide⟩

/-! ## Claim C8 — the retention sweep -/

theorem run_wipe_ops_clean (fails : WipeOp → Bool) (h : ∀ op, fails op = false) :
    ∀ (ops : List WipeOp) (dbp : DB),
      run_wipe_ops fails ops dbp
        = (ops, some (ops.foldl (fun d op => apply_wipe_op op d) dbp)) := by
  intro ops
  induction ops with
  | nil => intro dbp; rfl
  | cons op rest ih =>
      intro dbp
      simp [run_wipe_ops, h op, ih (apply_wipe_op op dbp)]

theorem purge_nil (db : DB) : purge [] db = db := by
  cases db
  simp [purge]

theorem contains_filter_step {α : Type} (key : α → String) (tid : String)
    (ids : List String) (l : List α) :
    (l.filter (fun a => !(key a == tid))).filter (fun a => !(ids.contains (key a)))
      = l.filter (fun a => !((tid :: ids).contains (key a))) := by
  rw [List.filter_filter]
  apply List.filter_congr
  intro a _
  simp only [List.contains_cons, Bool.not_or]
  exact Bool.and_comm _ _

theorem foldl_wipe_ops (ts : List TaskRow) (db : DB) :
    (wipe_ops_for ts ++ [WipeOp.commit]).foldl (fun d op => apply_wipe_op op d) db
      = purge (ts.map (·.id)) db := by
  induction ts generalizing db with
  | nil => exact (purge_nil db).symm
  | cons t rest ih =>
      have step : (wipe_ops_for (t :: rest) ++ [WipeOp.commit])
          = WipeOp.delFindings t.id :: WipeOp.delReport t.id :: WipeOp.delTask t.id ::
            (wipe_ops_for rest ++ [WipeOp.commit]) := by
        simp [wipe_ops_for]
      rw [step, List.foldl_cons, List.foldl_cons, List.foldl_cons, ih]
      cases db
      simp only [apply_wipe_op, purge, List.map_cons]
      congr 1
      · exact contains_filter_step (fun x : TaskRow => x.id) t.id (rest.map (·.id)) _
      · exact contains_filter_step (fun x : FindingRow => x.task_id) t.id (rest.map (·.id)) _
      · exact contains_filter_step (fun x : ReportRow => x.task_id) t.id (rest.map (·.id)) _

/-- Claim C8 (amended): a sweep cycle selects exactly the tasks with
`created_at < now − TTL` and issues, per selected task in order, the deletion
of its findings, then its threat report, then the task row, with one commit at
the end of the cycle; a fault-free cycle removes all rows of every selected task.
A failing statement aborts the remainder of the cycle — the statements after
it (the deletions of later tasks included) are not attempted and the durable state
is unchanged — and tasks expired now are still selected by any later cycle,
which is how the next cycle retries after `_auto_wipe_loop` catches the
error. -/
theorem C8_sweep_cycle (ttl now : Int) (fails : WipeOp → Bool) (db : DB) :
    ((∀ op, fails op = false) →
        (wipe_expired_tasks ttl now fails db).trace
            = wipe_ops_for (expired_tasks ttl now db) ++ [WipeOp.commit]
        ∧ (wipe_expired_tasks ttl now fails db).wiped
            = some (expired_tasks ttl now db).length
        ∧ (wipe_expired_tasks ttl now fails db).db
            = purge ((expired_tasks ttl now db).map (·.id)) db)
    ∧ ((wipe_expired_tasks ttl now fails db).wiped = none →
        (wipe_expired_tasks ttl now fails db).db = db)
    ∧ (∀ now2, now ≤ now2 → ∀ t ∈ expired_tasks ttl now db, t ∈ expired_tasks ttl now2 db) := by
  refine ⟨?_, ?_, ?_⟩
  · intro hclean
    simp only [wipe_expired_tasks]
    rw [run_wipe_ops_clean fails hclean]
    exact ⟨rfl, rfl, foldl_wipe_ops _ _⟩
  · intro hnone
    simp only [wipe_expired_tasks] at hnone ⊢
    rcases hrun : run_wipe_ops fails
        (wipe_ops_for (expired_tasks ttl now db) ++ [WipeOp.commit]) db with ⟨tr, out⟩
    rw [hrun] at hnone
    cases out with
    | none => rfl
    | some pending => exact Option.noConfusion hnone
  · intro now2 h t ht
    simp only [expired_tasks, List.mem_filter, decide_eq_true_eq] at ht ⊢
    exact ⟨ht.1, lt_of_lt_of_le ht.2 (by linarith)⟩

/-- Concrete database for the C8 theorems: two expired tasks with a finding
each. -/
def db_c8 : DB :=
  { tasks := [⟨"t1", "a", "email", "completed", 100, 0, some 10⟩,
              ⟨"t2", "b", "email", "completed", 100, 0, some 10⟩]
    findings := [⟨"t1", "Reddit", none, 0, none, "REPUTATIONAL", 0⟩,
                 ⟨"t2", "Reddit", none, 0, none, "REPUTATIONAL", 0⟩]
    reports := [] }

/-- Witness for C8 on a fault-free cycle and the next-cycle selection. -/
theorem C8_sweep_cycle_witness :
    (wipe_expired_tasks 24 100000 (fun _ => false) db_c8).trace
        = wipe_ops_for (expired_tasks 24 100000 db_c8) ++ [WipeOp.commit]
    ∧ (wipe_expired_tasks 24 100000 (fun _ => false) db_c8).wiped
        = some (expired_tasks 24 100000 db_c8).length
    ∧ (wipe_expired_tasks 24 100000 (fun _ => false) db_c8).db
        = purge ((expired_tasks 24 100000 db_c8).map (·.id)) db_c8
    ∧ (⟨"t1", "a", "email", "completed", 100, 0, some 10⟩ : TaskRow)
        ∈ expired_tasks 24 200000 db_c8 := by
  have h := C8_sweep_cycle 24 100000 (fun _ => false) db_c8
  have hc := h.1 (fun op => rfl)
  exact ⟨hc.1, hc.2.1, hc.2.2,
    h.2.2 200000 (by norm_num) ⟨"t1", "a", "email", "completed", 100, 0, some 10⟩ (by decide)⟩

/-- Claim C8, counterexample: with two expired tasks and the deletion of the
findings of the first task raising, the cycle attempts only that one statement —
the deletions for the second expired task are never attempted in that cycle and
nothing commits — refuting "deletion is attempted for every expired task even
if isolated sweep iterations fail". -/
theorem C8_counterexample :
    (wipe_expired_tasks 24 100000 (fun op => op == WipeOp.delFindings "t1") db_c8).trace
        = [WipeOp.delFindings "t1"]
    ∧ (wipe_expired_tasks 24 100000 (fun op => op == WipeOp.delFindings "t1") db_c8).wiped
        = none
    ∧ (wipe_expired_tasks 24 100000 (fun op => op == WipeOp.delFindings "t1") db_c8).db
        = db_c8
    ∧ WipeOp.delFindings "t2" ∉
        (wipe_expired_tasks 24 100000 (fun op => op == WipeOp.delFindings "t1") db_c8).trace :=
  ⟨rfl, rfl, rfl, by decide⟩

/-! ## Claim C9 — wipe idempotence -/

/-- Claim C9: in a database satisfying the referential integrity of the schema, the
first wipe of a task id leaves no Finding or ThreatReport row of that task,
and a second wipe returns the already-gone outcome `false` without changing
anything (and without raising — the operation is total). -/
theorem C9_wipe_idempotent (db : DB) (tid : String) (h : RefIntegrity db) :
    (∀ f ∈ (wipe_task_data tid db).2.findings, f.task_id ≠ tid)
    ∧ (∀ r ∈ (wipe_task_data tid db).2.reports, r.task_id ≠ tid)
    ∧ (wipe_task_data tid (wipe_task_data tid db).2).1 = false
    ∧ (wipe_task_data tid (wipe_task_data tid db).2).2 = (wipe_task_data tid db).2 := by
  rcases hf : db.tasks.find? (fun t => t.id == tid) with _ | t
  · have hnone : ∀ t ∈ db.tasks, ¬(t.id == tid) = true := List.find?_eq_none.mp hf
    have hwipe : wipe_task_data tid db = (false, db) := by
      unfold wipe_task_data
      rw [hf]
    refine ⟨?_, ?_, ?_, ?_⟩
    · intro f hfm heq
      have hfm2 : f ∈ db.findings := by
        have h0 := hfm
        rw [hwipe] at h0
        exact h0
      rcases h.1 f hfm2 with ⟨t, ht, hid⟩
      exact hnone t ht (by simp [hid, heq])
    · intro r hrm heq
      have hrm2 : r ∈ db.reports := by
        have h0 := hrm
        rw [hwipe] at h0
        exact h0
      rcases h.2 r hrm2 with ⟨t, ht, hid⟩
      exact hnone t ht (by simp [hid, heq])
    · rw [hwipe]
      show (wipe_task_data tid db).1 = false
      rw [hwipe]
    · rw [hwipe]
      show (wipe_task_data tid db).2 = db
      rw [hwipe]
  · have hwipe : wipe_task_data tid db =
        (true,
         { tasks := db.tasks.filter (fun t => !(t.id == tid))
           findings := db.findings.filter (fun f => !(f.task_id == tid))
           reports := db.reports.filter (fun r => !(r.task_id == tid)) }) := by
      unfold wipe_task_data
      rw [hf]
    have hnone2 : (db.tasks.filter (fun t => !(t.id == tid))).find?
        (fun t => t.id == tid) = none := by
      rw [List.find?_eq_none]
      intro a ha
      have h2 := (List.mem_filter.mp ha).2
      simp only [Bool.not_eq_true'] at h2
      simp [h2]
    refine ⟨?_, ?_, ?_, ?_⟩
    · intro f hfm
      have h0 := hfm
      rw [hwipe] at h0
      have h2 := (List.mem_filter.mp h0).2
      simpa using h2
    · intro r hrm
      have h0 := hrm
      rw [hwipe] at h0
      have h2 := (List.mem_filter.mp h0).2
      simpa using h2
    · rw [hwipe]
      unfold wipe_task_data
      rw [hnone2]
    · rw [hwipe]
      unfold wipe_task_data
      rw [hnone2]

/-- Concrete database for the C9 witness: one completed task with a finding. -/
def db_c9 : DB :=
  { tasks := [⟨"T", "alice", "username", "completed", 100, 0, some 50⟩]
    findings := [⟨"T", "Reddit", none, 0, none, "REPUTATIONAL", 0⟩]
    reports := [] }

/-- Witness for C9 at a concrete database and task id. -/
theorem C9_wipe_idempotent_witness :
    (wipe_task_data "T" (wipe_task_data "T" db_c9).2).1 = false
    ∧ (wipe_task_data "T" (wipe_task_data "T" db_c9).2).2 = (wipe_task_data "T" db_c9).2 := by
  have h := C9_wipe_idempotent db_c9 "T" (by unfold RefIntegrity; decide)
  exact ⟨h.2.2.1, h.2.2.2⟩

end Kashf
